import Mathlib

/-!
# Verification of the IMAP client wrapper, shell and GUI

A shallow embedding of the repository's Python code
(`client_wrapper.py`, `client_shell.py`, `gui.py`) and proofs about it.

Modelling conventions:
* Python `str` values are `String` when treated atomically (folder names,
  printed messages) and `List Char` when the code inspects their characters
  (the comma-separated id parsing in the shell and GUI).
* Raw bytes (`bytes`) are `List Nat` (each entry `< 256` where relevant);
  decoded text at the codec level is a `List Nat` of Unicode code points.
* Calls into the third-party IMAPClient library are recorded as `LibCall`
  values; the library's behaviour at each call site is an explicit
  `Except`-valued oracle argument, so one run of an operation is a function
  of the state and the oracle outcomes.
* Filesystem effects (`mkdir`, `write_bytes`) are recorded as `FsEvent`
  values in the order the code performs them.
-/

/-! ## Python string primitives (ASCII fragment used by the shell/GUI) -/

/-- Python `str.split(',')`: splits on every comma, keeping empty tokens
(`"".split(',') == ['']`). -/
def pySplitComma : List Char → List (List Char)
  | [] => [[]]
  | c :: rest =>
    if c = ',' then [] :: pySplitComma rest
    else
      match pySplitComma rest with
      | [] => [[c]]
      | t :: ts => (c :: t) :: ts

/-- The ASCII whitespace characters removed by Python `str.strip()`. -/
def pyIsSpace (c : Char) : Bool :=
  c = ' ' ∨ c = '\t' ∨ c = '\n' ∨ c = '\r' ∨ c = '\x0b' ∨ c = '\x0c'

/-- Python `str.strip()` on ASCII text: drop whitespace at both ends. -/
def pyStrip (s : List Char) : List Char :=
  ((s.dropWhile pyIsSpace).reverse.dropWhile pyIsSpace).reverse

/-- An ASCII decimal digit. -/
def pyIsAsciiDigit (c : Char) : Bool :=
  '0' ≤ c ∧ c ≤ '9'

/-- Python `str.isdigit()` on ASCII text: non-empty and all digits. -/
def pyIsDigit (s : List Char) : Bool :=
  !s.isEmpty && s.all pyIsAsciiDigit

/-- Python `int(s)` on a string of ASCII digits. -/
def pyDigitsToNat (s : List Char) : Nat :=
  s.foldl (fun acc c => acc * 10 + (c.toNat - 48)) 0

/-- Python `str.lower()` on ASCII text. -/
def pyLower (s : List Char) : List Char :=
  s.map Char.toLower

/-- The comprehension
`[int(t.strip()) for t in line.split(',') if t.strip().isdigit()]`
shared by `get_message_ids_input`, `do_delete` and the GUI's
`delete_emails`.  In this ASCII model `int` cannot raise on a string that
passed `isdigit`, so the surrounding `except ValueError` branch is
unreachable. -/
def parseIdsLine (line : List Char) : List Nat :=
  ((pySplitComma line).filter (fun t => pyIsDigit (pyStrip t))).map
    (fun t => pyDigitsToNat (pyStrip t))

/-- `client_shell.py`, `get_message_ids_input` (lines 85-91): parse the
comma-separated id line typed by the user. -/
def get_message_ids_input (ids_input : List Char) : List Nat :=
  parseIdsLine ids_input

/-- One Python list-indexing step `xs[i - 1]`: `none` models an
`IndexError`. -/
def pyIndex1 {α : Type} (xs : List α) (i : Nat) : Option α :=
  xs.get? (i - 1)

/-- Evaluation of the comprehension `[xs[i - 1] for i in indices if guard i]`
after the guard has been applied: builds the selected elements left to
right, aborting with `none` when an index is out of range (an
`IndexError`). -/
def pyIndexMany {α : Type} (xs : List α) : List Nat → Option (List α)
  | [] => some []
  | i :: rest =>
    match pyIndex1 xs i with
    | none => none
    | some a =>
      match pyIndexMany xs rest with
      | none => none
      | some l => some (a :: l)

/-- `client_shell.py`, `get_attachment_selection` (lines 115-126): `'all'`
returns the whole list, otherwise the numeric tokens are parsed and the
attachments at the in-range 1-based indices are returned; a `ValueError`
or `IndexError` would return `[]`. -/
def get_attachment_selection (attachments : List (String × List Nat))
    (selection_raw : List Char) : List (String × List Nat) :=
  let selection := pyLower selection_raw
  if selection = ['a', 'l', 'l'] then attachments
  else
    let indices := parseIdsLine selection
    match pyIndexMany attachments
        (indices.filter (fun i => 0 < i ∧ i ≤ attachments.length)) with
    | some picked => picked
    | none => []

/-! ## The wrapper (`client_wrapper.py`) -/

/-- A call into the IMAPClient library.  The connection handle itself is
opaque, so only the call and its arguments are recorded. -/
inductive LibCall where
  | loginCall (username password : String)
  | listFoldersCall
  | selectFolderCall (folder : String)
  | searchCall
  | fetchCall (msg_id : Nat)
  | deleteMessagesCall (msg_ids : List Nat)
  | expungeCall
  | appendCall (folder : String)
  | logoutCall
deriving DecidableEq, Repr

/-- The fields of `IMAPClientWrapper` that the control flow reads: the
library handle (`None` or an opaque open connection) and the currently
selected folder.  The immutable connection parameters (`server`, `port`,
`use_ssl`) play no role in any claim and are omitted. -/
structure WrapperState where
  client : Option Unit
  current_folder : Option String
deriving DecidableEq, Repr

/-- The observable result of one wrapper method run: the wrapper state on
return, the library calls issued, and the lines printed. -/
structure OpResult where
  state : WrapperState
  calls : List LibCall
  output : List String
deriving DecidableEq, Repr

/-- The exception classes caught by `IMAPClientWrapper.login`. -/
inductive LoginError where
  | imapError (msg : String)
  | keyError (msg : String)
  | typeError (msg : String)
deriving DecidableEq, Repr

/-- The exception classes caught by `IMAPClientWrapper.upload_email`. -/
inductive UploadError where
  | imapError (msg : String)
  | osError (msg : String)
deriving DecidableEq, Repr

/-- `client_wrapper.py`, `connect` (lines 19-29): on success the handle is
set, on any caught connection error it stays `None`; no folder is selected
either way. -/
def wrapper_connect (outcome : Except String Unit) : WrapperState :=
  match outcome with
  | .ok _ => { client := some (), current_folder := none }
  | .error _ => { client := none, current_folder := none }

/-- `client_wrapper.py`, `login` (lines 31-44). -/
def wrapper_login (s : WrapperState) (username password : String)
    (outcome : Except LoginError Unit) : OpResult :=
  match s.client with
  | none =>
    ⟨s, [], ["Error: Not connected to the server. Call 'connect' first."]⟩
  | some _ =>
    match outcome with
    | .ok _ =>
      ⟨s, [.loginCall username password], ["Logged in successfully!"]⟩
    | .error (.imapError e) =>
      ⟨s, [.loginCall username password], ["Login failed: " ++ e]⟩
    | .error (.keyError e) =>
      ⟨s, [.loginCall username password], ["Key error during login: " ++ e]⟩
    | .error (.typeError e) =>
      ⟨s, [.loginCall username password], ["Type error during login: " ++ e]⟩

/-- `client_wrapper.py`, `list_folders` (lines 46-56); a folder entry is
the `(flags, delimiter, name)` triple the library returns. -/
def wrapper_list_folders (s : WrapperState)
    (outcome : Except String (List (String × String × String))) : OpResult :=
  match s.client with
  | none => ⟨s, [], ["Not connected!"]⟩
  | some _ =>
    match outcome with
    | .ok folders =>
      ⟨s, [.listFoldersCall],
        "Folders:" :: folders.map (fun f => "- " ++ f.2.2)⟩
    | .error e =>
      ⟨s, [.listFoldersCall], ["Error listing folders: " ++ e]⟩

/-- `client_wrapper.py`, `select_folder` (lines 58-67): `current_folder`
is assigned only after the library call returns. -/
def wrapper_select_folder (s : WrapperState) (folder : String)
    (outcome : Except String Unit) : OpResult :=
  match s.client with
  | none => ⟨s, [], ["Not connected!"]⟩
  | some _ =>
    match outcome with
    | .ok _ =>
      ⟨{ s with current_folder := some folder }, [.selectFolderCall folder],
        ["Selected folder '" ++ folder ++ "'."]⟩
    | .error e =>
      ⟨s, [.selectFolderCall folder],
        ["Error selecting folder '" ++ folder ++ "': " ++ e]⟩

/-- `client_wrapper.py`, `fetch_message_ids` (lines 98-108), run against a
possibly-`None` handle: `self.client.search` on `None` raises an
`AttributeError` before any library call; otherwise the library call is
issued and either returns the id list (trimmed to the last 10) or raises.
Returns the id list, the calls issued and the lines printed. -/
def fetch_message_ids (client : Option Unit)
    (searchOutcome : Except String (List Nat)) :
    List Nat × List LibCall × List String :=
  match client with
  | none => ([], [], ["Client is not initialized. Did you forget to connect?"])
  | some _ =>
    match searchOutcome with
    | .ok messages =>
      (if 10 ≤ messages.length then messages.drop (messages.length - 10)
       else messages, [.searchCall], [])
    | .error e => ([], [.searchCall], ["Error fetching message IDs: " ++ e])

/-- `client_wrapper.py`, `fetch_emails` (lines 69-96).  The guards are
modelled exactly; the connected-and-selected branch (lines 78-96) is a
long library-driven loop that no claim constrains, so its run is an
arbitrary `OpResult` parameter. -/
def wrapper_fetch_emails (s : WrapperState) (connectedRun : OpResult) :
    OpResult :=
  match s.client with
  | none => ⟨s, [], ["Not connected!"]⟩
  | some _ =>
    match s.current_folder with
    | none => ⟨s, [], ["No folder selected. Use 'select' to choose a folder."]⟩
    | some _ => connectedRun

/-- `client_wrapper.py`, `delete_emails` (lines 247-261): after the
guards, `delete_messages` then `expunge` are called; either may raise. -/
def wrapper_delete_emails (s : WrapperState) (msg_ids : List Nat)
    (deleteOutcome expungeOutcome : Except String Unit) : OpResult :=
  match s.client with
  | none => ⟨s, [], ["Not connected!"]⟩
  | some _ =>
    match s.current_folder with
    | none => ⟨s, [], ["No folder selected. Use 'select' to choose a folder."]⟩
    | some _ =>
      match deleteOutcome with
      | .error e =>
        ⟨s, [.deleteMessagesCall msg_ids],
          ["Ошибка при удалении сообщений: " ++ e]⟩
      | .ok _ =>
        match expungeOutcome with
        | .error e =>
          ⟨s, [.deleteMessagesCall msg_ids, .expungeCall],
            ["Ошибка при удалении сообщений: " ++ e]⟩
        | .ok _ =>
          ⟨s, [.deleteMessagesCall msg_ids, .expungeCall],
            ["Удалено " ++ toString msg_ids.length ++ " сообщение(ий)."]⟩

/-- The message ids a `delete_emails` run actually removes from the
mailbox: all of `msg_ids` when the guards pass and both `delete_messages`
and `expunge` succeed, none otherwise. -/
def wrapperDeletedIds (s : WrapperState) (msg_ids : List Nat)
    (deleteOutcome expungeOutcome : Except String Unit) : List Nat :=
  match s.client, s.current_folder with
  | some _, some _ =>
    match deleteOutcome, expungeOutcome with
    | .ok _, .ok _ => msg_ids
    | _, _ => []
  | _, _ => []

/-- `client_wrapper.py`, `logout` (lines 263-274): the `finally` block
sets the handle to `None` on both the success and the error path. -/
def wrapper_logout (s : WrapperState) (outcome : Except String Unit) :
    OpResult :=
  match s.client with
  | none => ⟨s, [], ["Client is already disconnected."]⟩
  | some _ =>
    match outcome with
    | .ok _ =>
      ⟨{ s with client := none }, [.logoutCall], ["Logged out successfully."]⟩
    | .error e =>
      ⟨{ s with client := none }, [.logoutCall],
        ["Error during logout: " ++ e]⟩

/-- `client_wrapper.py`, `upload_email` (lines 276-294): after the guard
the message is composed locally (no library call) and `append` is
issued. -/
def wrapper_upload_email (s : WrapperState) (folder _subject _body : String)
    (_recipients : List String) (_sender : String)
    (outcome : Except UploadError Unit) : OpResult :=
  match s.client with
  | none => ⟨s, [], ["Not connected!"]⟩
  | some _ =>
    match outcome with
    | .ok _ =>
      ⟨s, [.appendCall folder],
        ["Email uploaded to folder '" ++ folder ++ "' successfully!"]⟩
    | .error (.imapError e) =>
      ⟨s, [.appendCall folder], ["IMAPClient error during email upload: " ++ e]⟩
    | .error (.osError e) =>
      ⟨s, [.appendCall folder], ["OS error while writing email data: " ++ e]⟩

/-! ## The shell (`client_shell.py`) -/

/-- The single mutable field of `IMAPClientShell`: the wrapper instance,
or `None` before `connect`. -/
structure ShellState where
  client : Option WrapperState
deriving DecidableEq, Repr

/-- `client_shell.py`, `do_delete` (lines 128-163), from the id prompt on
(the listing that precedes it touches no state): parse the ids, return at
once when none are numeric, ask for confirmation, and only then call the
wrapper's `delete_emails`.  The `except ValueError` branch cannot trigger
in the ASCII model. -/
def do_delete_after_listing (w : WrapperState) (ids_input : List Char)
    (confirm_input : List Char)
    (deleteOutcome expungeOutcome : Except String Unit) :
    WrapperState × List LibCall :=
  let ids_to_delete := parseIdsLine ids_input
  if ids_to_delete = [] then (w, [])
  else if pyLower confirm_input ≠ ['y'] then (w, [])
  else
    let r := wrapper_delete_emails w ids_to_delete deleteOutcome expungeOutcome
    (r.state, r.calls)

/-- `client_shell.py`, `do_download_attachments` (lines 52-70), from the
id prompt on: when no id parses the command returns before processing any
message; otherwise each id is handed to `process_message`, whose run
(which starts with a `fetch` library call) is given by the continuation
parameter. -/
def do_download_attachments_after_listing (ids_input : List Char)
    (processRun : Nat → List LibCall) : List LibCall :=
  let msg_ids := get_message_ids_input ids_input
  if msg_ids = [] then []
  else (msg_ids.map processRun).flatten

/-- `client_shell.py`, `do_logout` (lines 165-170). -/
def do_logout (sh : ShellState) (outcome : Except String Unit) :
    ShellState × List String :=
  match sh.client with
  | none => (sh, ["Not connected."])
  | some w =>
    let r := wrapper_logout w outcome
    (⟨none⟩, r.output)

/-- `client_shell.py`, `do_exit` (lines 172-180): always prints, logs out
when a client exists (any exception is caught and printed), always clears
the client and returns `True` to stop the loop. -/
def do_exit (sh : ShellState) (outcome : Except String Unit) :
    ShellState × Bool :=
  match sh.client with
  | none => (⟨none⟩, true)
  | some w =>
    let _ := wrapper_logout w outcome
    (⟨none⟩, true)

/-! ## Attachment saving (`client_wrapper.py`, filesystem side) -/

/-- One filesystem action performed while saving attachments. -/
inductive FsEvent where
  | mkdirCall (path : String)
  | writeFile (path : String) (data : List Nat)
deriving DecidableEq, Repr

/-- `client_wrapper.py`, `save_attachments` (lines 222-232): create the
directory, then write each attachment's bytes to `save_dir/<filename>`
(the Python default for `save_dir` is `"attachments"`).  The events are
the writes the code attempts; an `OSError` on one write is printed and
the loop continues. -/
def save_attachments (attachments : List (String × List Nat))
    (save_dir : String) : List FsEvent :=
  FsEvent.mkdirCall save_dir ::
    attachments.map (fun a => FsEvent.writeFile (save_dir ++ "/" ++ a.1) a.2)

/-- `client_wrapper.py`, `download_specific_attachments` (lines 234-245):
like `save_attachments` but under `save_dir/message_<msg_id>/`. -/
def download_specific_attachments (msg_id : Nat)
    (attachments : List (String × List Nat)) (save_dir : String) :
    List FsEvent :=
  let save_path := save_dir ++ "/message_" ++ toString msg_id
  FsEvent.mkdirCall save_path ::
    attachments.map (fun a => FsEvent.writeFile (save_path ++ "/" ++ a.1) a.2)

/-! ## Header decoding (`client_wrapper.py`, `extract_sender` /
`extract_subject`)

Python's `bytes.decode('utf-8', errors='ignore')` never raises: every
maximal invalid subsequence is dropped.  Since the first byte of an
invalid sequence is skipped and the remaining bytes of that sequence are
continuation bytes (`0x80`-`0xBF`, never a valid start), skipping one byte
at a time yields the same output as CPython's maximal-subpart skipping. -/

/-- Is `b` a UTF-8 continuation byte? -/
def isUtf8Cont (b : Nat) : Bool :=
  0x80 ≤ b ∧ b ≤ 0xBF

/-- Parse one UTF-8 scalar value at the head of the byte list (strict
UTF-8: no overlong forms, no surrogates, at most `U+10FFFF`).  Returns the
code point and the remaining bytes, or `none` when the head starts no
valid sequence. -/
def utf8DecodeOne : List Nat → Option (Nat × List Nat)
  | [] => none
  | b0 :: r0 =>
    if b0 < 0x80 then some (b0, r0)
    else
      match r0 with
      | [] => none
      | b1 :: r1 =>
        if 0xC2 ≤ b0 ∧ b0 ≤ 0xDF ∧ isUtf8Cont b1 then
          some ((b0 - 0xC0) * 0x40 + (b1 - 0x80), r1)
        else
          match r1 with
          | [] => none
          | b2 :: r2 =>
            if ((b0 = 0xE0 ∧ 0xA0 ≤ b1 ∧ b1 ≤ 0xBF) ∨
                (0xE1 ≤ b0 ∧ b0 ≤ 0xEC ∧ isUtf8Cont b1) ∨
                (b0 = 0xED ∧ 0x80 ≤ b1 ∧ b1 ≤ 0x9F) ∨
                (0xEE ≤ b0 ∧ b0 ≤ 0xEF ∧ isUtf8Cont b1)) ∧ isUtf8Cont b2 then
              some ((b0 - 0xE0) * 0x1000 + (b1 - 0x80) * 0x40 + (b2 - 0x80), r2)
            else
              match r2 with
              | [] => none
              | b3 :: r3 =>
                if ((b0 = 0xF0 ∧ 0x90 ≤ b1 ∧ b1 ≤ 0xBF) ∨
                    (0xF1 ≤ b0 ∧ b0 ≤ 0xF3 ∧ isUtf8Cont b1) ∨
                    (b0 = 0xF4 ∧ 0x80 ≤ b1 ∧ b1 ≤ 0x8F)) ∧
                    isUtf8Cont b2 ∧ isUtf8Cont b3 then
                  some ((b0 - 0xF0) * 0x40000 + (b1 - 0x80) * 0x1000 +
                    (b2 - 0x80) * 0x40 + (b3 - 0x80), r3)
                else none

/-- `bytes.decode('utf-8', errors='ignore')`, fuel-indexed (the fuel is
the byte count, which always suffices since every step consumes at least
one byte): decode scalars, skipping bytes that start no valid sequence. -/
def utf8DecodeIgnoreAux : Nat → List Nat → List Nat
  | 0, _ => []
  | _ + 1, [] => []
  | fuel + 1, b :: rest =>
    match utf8DecodeOne (b :: rest) with
    | some (cp, rest2) => cp :: utf8DecodeIgnoreAux fuel rest2
    | none => utf8DecodeIgnoreAux fuel rest

/-- `bytes.decode('utf-8', errors='ignore')`: total, never raises. -/
def pyBytesDecodeUtf8Ignore (b : List Nat) : List Nat :=
  utf8DecodeIgnoreAux b.length b

/-- Strict `bytes.decode('utf-8')`: `none` models a `UnicodeDecodeError`. -/
def utf8DecodeStrictAux : Nat → List Nat → Option (List Nat)
  | 0, l => if l.isEmpty then some [] else none
  | _ + 1, [] => some []
  | fuel + 1, b :: rest =>
    match utf8DecodeOne (b :: rest) with
    | some (cp, rest2) =>
      match utf8DecodeStrictAux fuel rest2 with
      | some cps => some (cp :: cps)
      | none => none
    | none => none

/-- Strict UTF-8 decoding of a whole byte string. -/
def utf8DecodeStrict (b : List Nat) : Option (List Nat) :=
  utf8DecodeStrictAux b.length b

/-- Is `b` valid UTF-8? -/
def utf8Valid (b : List Nat) : Bool :=
  (utf8DecodeStrict b).isSome

/-- `bytes.decode('latin1')`: every byte is its own code point. -/
def latin1Decode (b : List Nat) : List Nat := b

/-- The value `decode_header(header)[0][0]` the email library hands back:
either raw bytes or already-decoded text. -/
inductive DecodedHeaderValue where
  | bytesVal (b : List Nat)
  | strVal (s : List Nat)
deriving DecidableEq, Repr

/-- Lines 137-142 of `client_wrapper.py` (and identically 149-154): on a
byte string, `decode('utf-8', errors='ignore')`; the
`except UnicodeDecodeError` fallback to latin-1 is unreachable because
the `'ignore'` decode is total. -/
def decodeHeaderBranch : DecodedHeaderValue → List Nat
  | .bytesVal b => pyBytesDecodeUtf8Ignore b
  | .strVal s => s

/-- `client_wrapper.py`, `extract_sender` (lines 133-143): `fromHeader` is
`msg['From']` (`none` when absent; the empty string is falsy) and
`decodedFirst` is the library's `decode_header(sender)[0][0]`. -/
def extract_sender (fromHeader : Option (List Nat))
    (decodedFirst : DecodedHeaderValue) : Option (List Nat) :=
  match fromHeader with
  | none => none
  | some sender =>
    if sender = [] then none else some (decodeHeaderBranch decodedFirst)

/-- `client_wrapper.py`, `extract_subject` (lines 145-155): the same code
as `extract_sender` applied to `msg['Subject']`. -/
def extract_subject (subjectHeader : Option (List Nat))
    (decodedFirst : DecodedHeaderValue) : Option (List Nat) :=
  match subjectHeader with
  | none => none
  | some subject =>
    if subject = [] then none else some (decodeHeaderBranch decodedFirst)

/-! ## The GUI (`gui.py`)

`current_messages` is a Python dict keyed by message id; it is modelled as
an insertion-ordered association list with distinct keys, with
insert-or-replace and raising deletion mirroring dict semantics.  Printed
output (`self.output.append`) is not modelled; the state changes and the
library calls are. -/

/-- The listing entry stored per message id: `(sender, subject, date)`. -/
abbrev MsgView := String × String × String

/-- Python `key in dict`. -/
def dictContains (m : List (Nat × MsgView)) (k : Nat) : Bool :=
  m.any (fun p => p.1 = k)

/-- Python `d[k] = v`: replace in place when the key exists, else append
(insertion order). -/
def dictInsert (m : List (Nat × MsgView)) (k : Nat) (v : MsgView) :
    List (Nat × MsgView) :=
  if dictContains m k then
    m.map (fun p => if p.1 = k then (k, v) else p)
  else m ++ [(k, v)]

/-- Python `del d[k]`: `none` models a `KeyError`. -/
def dictDelete (m : List (Nat × MsgView)) (k : Nat) :
    Option (List (Nat × MsgView)) :=
  if dictContains m k then some (m.filter (fun p => ¬ p.1 = k)) else none

/-- The loop `for id_ in ks: del m[id_]`: returns the dict after the loop
and whether a `KeyError` was raised (in which case the removals made
before the raise persist). -/
def dictDeleteMany (m : List (Nat × MsgView)) :
    List Nat → List (Nat × MsgView) × Bool
  | [] => (m, false)
  | k :: rest =>
    match dictDelete m k with
    | none => (m, true)
    | some m2 => dictDeleteMany m2 rest

/-- The fields of `IMAPClientGUI` the claims concern: the wrapper (or
`None`) and the current listing map. -/
structure GuiState where
  client : Option WrapperState
  current_messages : List (Nat × MsgView)
deriving DecidableEq, Repr

/-- The initial GUI state (`__init__`, lines 10-14): no client, empty
listing map. -/
def guiInit : GuiState :=
  { client := none, current_messages := [] }

/-- What the GUI learns about one fetched message: `none` when
`fetch_message` returned `None`, otherwise the three `extract_*` results
(each `None` when the header is missing or undecodable). -/
abbrev GuiFetchedMsg := Option (Option String × Option String × Option String)

/-- The listing map `list_emails` builds from scratch for the fetched ids:
an entry per id whose fetch succeeded, with the `or`-defaults of lines
117-119 of `gui.py` applied. -/
def guiFreshListing (message_ids : List Nat) (fetchMsg : Nat → GuiFetchedMsg) :
    List (Nat × MsgView) :=
  message_ids.foldl
    (fun m msg_id =>
      match fetchMsg msg_id with
      | none => m
      | some (snd, sub, dat) =>
        dictInsert m msg_id
          (snd.getD "Unknown Sender", sub.getD "No Subject",
            dat.getD "Unknown Date"))
    []

/-- `gui.py`, `connect_to_server` (lines 49-59): the two dialogs may be
cancelled, otherwise a fresh wrapper is created and connected.  The
listing map is untouched. -/
def gui_connect_to_server (s : GuiState) (serverOk portOk : Bool)
    (connectOutcome : Except String Unit) : GuiState :=
  if ¬ serverOk then s
  else if ¬ portOk then s
  else { s with client := some (wrapper_connect connectOutcome) }

/-- `gui.py`, `login` (lines 61-74): guard, dialogs, then the wrapper's
`login`, which never changes the wrapper state. -/
def gui_login (s : GuiState) (username password : String) (uOk pOk : Bool)
    (outcome : Except LoginError Unit) : GuiState :=
  match s.client with
  | none => s
  | some w =>
    if ¬ uOk then s
    else if ¬ pOk then s
    else { s with client := some (wrapper_login w username password outcome).state }

/-- `gui.py`, `select_folder` (lines 90-98). -/
def gui_select_folder (s : GuiState) (folder : String) (fOk : Bool)
    (outcome : Except String Unit) : GuiState :=
  match s.client with
  | none => s
  | some w =>
    if ¬ fOk then s
    else { s with client := some (wrapper_select_folder w folder outcome).state }

/-- `gui.py`, `list_emails` (lines 100-121): guard on the client, clear
`current_messages`, fetch the ids, and repopulate the cleared map with the
messages that fetch successfully. -/
def gui_list_emails (s : GuiState) (searchOutcome : Except String (List Nat))
    (fetchMsg : Nat → GuiFetchedMsg) : GuiState :=
  match s.client with
  | none => s
  | some w =>
    let fr := fetch_message_ids w.client searchOutcome
    let message_ids := fr.1
    if message_ids = [] then { s with current_messages := [] }
    else { s with current_messages := guiFreshListing message_ids fetchMsg }

/-- `gui.py`, `download_attachments` (lines 123-145): guards, then writes
the fetched attachments under `cwd/attachments/message_<id>/`; neither the
client nor the listing map changes.  `cwd` is the process working
directory from `os.getcwd()`. -/
def gui_download_attachments (s : GuiState) (msg_id : Nat) (idOk : Bool)
    (fetched : Option (List (String × List Nat))) (cwd : String) :
    GuiState × List FsEvent :=
  match s.client with
  | none => (s, [])
  | some _ =>
    if s.current_messages = [] then (s, [])
    else if ¬ idOk then (s, [])
    else if ¬ dictContains s.current_messages msg_id then (s, [])
    else
      match fetched with
      | none => (s, [])
      | some attachments =>
        if attachments = [] then (s, [])
        else
          let save_dir := cwd ++ "/attachments"
          (s, FsEvent.mkdirCall save_dir ::
            download_specific_attachments msg_id attachments save_dir)

/-- `gui.py`, `delete_emails` (lines 147-173): guards, parse the ids,
filter them against `current_messages`, confirm, call the wrapper's
`delete_emails` (whose library failures it swallows), then delete each
valid id from the map — `del` raises an uncaught `KeyError` on a
duplicate.  Returns the state, the library calls issued and whether a
`KeyError` escaped. -/
def gui_delete_emails (s : GuiState) (ids_input : List Char) (inputOk : Bool)
    (confirm : Bool) (deleteOutcome expungeOutcome : Except String Unit) :
    GuiState × List LibCall × Bool :=
  match s.client with
  | none => (s, [], false)
  | some w =>
    if s.current_messages = [] then (s, [], false)
    else if ¬ inputOk then (s, [], false)
    else
      let ids_to_delete := parseIdsLine ids_input
      let valid_ids := ids_to_delete.filter
        (fun id_ => dictContains s.current_messages id_)
      if valid_ids = [] then (s, [], false)
      else if ¬ confirm then (s, [], false)
      else
        let r := wrapper_delete_emails w valid_ids deleteOutcome expungeOutcome
        let dm := dictDeleteMany s.current_messages valid_ids
        ({ client := some r.state, current_messages := dm.1 }, r.calls, dm.2)

/-- `gui.py`, `logout` (lines 175-181): only when a client exists is the
wrapper logged out, the client dropped and the listing map cleared. -/
def gui_logout (s : GuiState) (outcome : Except String Unit) : GuiState :=
  match s.client with
  | none => s
  | some w =>
    let _ := wrapper_logout w outcome
    { client := none, current_messages := [] }

/-- One GUI button press, with the dialog inputs and library outcomes it
consumed. -/
inductive GuiEvent where
  | connectEv (serverOk portOk : Bool) (connectOutcome : Except String Unit)
  | loginEv (username password : String) (uOk pOk : Bool)
      (outcome : Except LoginError Unit)
  | listFoldersEv (outcome : Except String (List (String × String × String)))
  | selectFolderEv (folder : String) (fOk : Bool)
      (outcome : Except String Unit)
  | listEmailsEv (searchOutcome : Except String (List Nat))
      (fetchMsg : Nat → GuiFetchedMsg)
  | downloadAttachmentsEv (msg_id : Nat) (idOk : Bool)
      (fetched : Option (List (String × List Nat))) (cwd : String)
  | deleteEmailsEv (ids_input : List Char) (inputOk confirm : Bool)
      (deleteOutcome expungeOutcome : Except String Unit)
  | logoutEv (outcome : Except String Unit)

/-- The GUI state after one button press (`list_folders`, lines 76-88,
reads but never writes the state). -/
def guiStep (s : GuiState) : GuiEvent → GuiState
  | .connectEv serverOk portOk co => gui_connect_to_server s serverOk portOk co
  | .loginEv u p uOk pOk o => gui_login s u p uOk pOk o
  | .listFoldersEv _ => s
  | .selectFolderEv f fOk o => gui_select_folder s f fOk o
  | .listEmailsEv so fm => gui_list_emails s so fm
  | .downloadAttachmentsEv m idOk fetched cwd =>
    (gui_download_attachments s m idOk fetched cwd).1
  | .deleteEmailsEv ids inputOk confirm d e =>
    (gui_delete_emails s ids inputOk confirm d e).1
  | .logoutEv o => gui_logout s o

/-- The reachability invariant of the GUI: whenever no client exists, the
listing map is empty. -/
def guiInv (s : GuiState) : Prop :=
  s.client = none → s.current_messages = []

/-! ## Helper lemmas -/

/-- Filtering then mapping is one `filterMap`. -/
theorem filter_map_eq_filterMap {α β : Type} (p : α → Bool) (f : α → β) :
    ∀ l : List α,
      (l.filter p).map f =
        l.filterMap (fun x => if p x then some (f x) else none)
  | [] => rfl
  | a :: t => by
    by_cases h : p a <;>
      simp [List.filter_cons, List.filterMap_cons, h,
        filter_map_eq_filterMap p f t]

/-- When every index passes the 1-based range guard, the indexing loop
raises no `IndexError` and returns exactly the elements at those
indices. -/
theorem pyIndexMany_all_in_range {α : Type} (xs : List α) :
    ∀ l : List Nat, (∀ i ∈ l, 0 < i ∧ i ≤ xs.length) →
      pyIndexMany xs l = some (l.filterMap (fun i => xs.get? (i - 1)))
  | [], _ => rfl
  | i :: rest, h => by
    have hi := h i (by simp)
    have hlt : i - 1 < xs.length := by omega
    obtain ⟨a, ha⟩ : ∃ a, xs.get? (i - 1) = some a := by
      cases hx : xs.get? (i - 1) with
      | none => exact absurd (List.get?_eq_none.mp hx) (by omega)
      | some a => exact ⟨a, rfl⟩
    have hrest := pyIndexMany_all_in_range xs rest
      (fun j hj => h j (by simp [hj]))
    simp only [pyIndexMany, pyIndex1, hrest, List.filterMap_cons,
      List.get?_eq_getElem?] at ha ⊢
    rw [ha]

/-- C4: the shell's message-id parsing (`get_message_ids_input` and the
`delete` command) keeps exactly the tokens whose stripped form is a
non-empty run of digit characters, converts them to integers, rejects all
other tokens, and when no token is numeric it yields the empty list and
the command goes on to process no message and to issue no deletion
call. -/
theorem C4_message_id_parsing (line : List Char) (w : WrapperState)
    (confirm_input : List Char) (d e : Except String Unit)
    (processRun : Nat → List LibCall) :
    get_message_ids_input line =
      (pySplitComma line).filterMap
        (fun t => if pyIsDigit (pyStrip t) then
          some (pyDigitsToNat (pyStrip t)) else none)
    ∧ (get_message_ids_input line = [] ↔
        ∀ t ∈ pySplitComma line, ¬ pyIsDigit (pyStrip t))
    ∧ (get_message_ids_input line = [] →
        do_download_attachments_after_listing line processRun = [])
    ∧ (parseIdsLine line = [] →
        do_delete_after_listing w line confirm_input d e = (w, [])) := by
  refine ⟨?_, ?_, ?_, ?_⟩
  · exact filter_map_eq_filterMap _ _ _
  · simp [get_message_ids_input, parseIdsLine]
  · intro h
    simp [do_download_attachments_after_listing, h]
  · intro h
    simp [do_delete_after_listing, h, get_message_ids_input]

/-- Witness for `C4_message_id_parsing` at the line `"7, x,12"`. -/
theorem C4_message_id_parsing_witness :
    get_message_ids_input ['7', ',', ' ', 'x', ',', '1', '2'] =
      (pySplitComma ['7', ',', ' ', 'x', ',', '1', '2']).filterMap
        (fun t => if pyIsDigit (pyStrip t) then
          some (pyDigitsToNat (pyStrip t)) else none)
    ∧ (get_message_ids_input ['7', ',', ' ', 'x', ',', '1', '2'] = [] ↔
        ∀ t ∈ pySplitComma ['7', ',', ' ', 'x', ',', '1', '2'],
          ¬ pyIsDigit (pyStrip t))
    ∧ (get_message_ids_input ['7', ',', ' ', 'x', ',', '1', '2'] = [] →
        do_download_attachments_after_listing ['7', ',', ' ', 'x', ',', '1', '2']
          (fun m => [.fetchCall m]) = [])
    ∧ (parseIdsLine ['7', ',', ' ', 'x', ',', '1', '2'] = [] →
        do_delete_after_listing ⟨some (), some "INBOX"⟩
          ['7', ',', ' ', 'x', ',', '1', '2'] ['y'] (.ok ()) (.ok ()) =
          (⟨some (), some "INBOX"⟩, [])) :=
  C4_message_id_parsing ['7', ',', ' ', 'x', ',', '1', '2']
    ⟨some (), some "INBOX"⟩ ['y'] (.ok ()) (.ok ()) (fun m => [.fetchCall m])

/-- C9: `get_attachment_selection` returns the whole attachment list for
the input `'all'`; otherwise it returns exactly the attachments at the
selected in-range 1-based indices, the indexing loop never hits an
`IndexError`, and out-of-range indices are silently dropped by the
guard. -/
theorem C9_attachment_selection_safe
    (attachments : List (String × List Nat)) (sel : List Char) :
    (pyLower sel = ['a', 'l', 'l'] →
      get_attachment_selection attachments sel = attachments)
    ∧ (pyLower sel ≠ ['a', 'l', 'l'] →
        pyIndexMany attachments
          ((parseIdsLine (pyLower sel)).filter
            (fun i => 0 < i ∧ i ≤ attachments.length)) ≠ none
        ∧ get_attachment_selection attachments sel =
            ((parseIdsLine (pyLower sel)).filter
              (fun i => 0 < i ∧ i ≤ attachments.length)).filterMap
              (fun i => attachments.get? (i - 1))) := by
  have hrange : ∀ i ∈ (parseIdsLine (pyLower sel)).filter
      (fun i => 0 < i ∧ i ≤ attachments.length),
      0 < i ∧ i ≤ attachments.length := by
    intro i hi
    have := (List.mem_filter.mp hi).2
    simpa using this
  have hsome := pyIndexMany_all_in_range attachments _ hrange
  constructor
  · intro h
    simp [get_attachment_selection, h]
  · intro h
    constructor
    · intro hc
      rw [hsome] at hc
      cases hc
    · unfold get_attachment_selection
      rw [if_neg h]
      simp only [hsome]

/-- Witness for `C9_attachment_selection_safe` with two attachments and
the selection `"2, 9, 1"` (9 is out of range and dropped). -/
theorem C9_attachment_selection_safe_witness :
    (pyLower ['2', ',', ' ', '9', ',', ' ', '1'] = ['a', 'l', 'l'] →
      get_attachment_selection [("a.txt", [1]), ("b.txt", [2])]
        ['2', ',', ' ', '9', ',', ' ', '1'] = [("a.txt", [1]), ("b.txt", [2])])
    ∧ (pyLower ['2', ',', ' ', '9', ',', ' ', '1'] ≠ ['a', 'l', 'l'] →
        pyIndexMany [("a.txt", [1]), ("b.txt", [2])]
          ((parseIdsLine (pyLower ['2', ',', ' ', '9', ',', ' ', '1'])).filter
            (fun i => 0 < i ∧ i ≤
              (List.length [("a.txt", [1]), ("b.txt", [2])]))) ≠ none
        ∧ get_attachment_selection [("a.txt", [1]), ("b.txt", [2])]
            ['2', ',', ' ', '9', ',', ' ', '1'] =
            ((parseIdsLine (pyLower ['2', ',', ' ', '9', ',', ' ', '1'])).filter
              (fun i => 0 < i ∧ i ≤
                (List.length [("a.txt", [1]), ("b.txt", [2])]))).filterMap
              (fun i => (List.get? [("a.txt", [1]), ("b.txt", [2])] (i - 1)))) :=
  C9_attachment_selection_safe [("a.txt", [1]), ("b.txt", [2])]
    ['2', ',', ' ', '9', ',', ' ', '1']

/-- C1: with no connection handle, `login`, `list_folders`,
`select_folder`, `fetch_emails`, `delete_emails` and `upload_email` print
an error and return with no library call and no state change; with a
handle but no selected folder, `fetch_emails` and `delete_emails` do
likewise. -/
theorem C1_connection_and_folder_guards
    (s : WrapperState) (hs : s.client = none)
    (t : WrapperState) (htc : t.client = some ()) (htf : t.current_folder = none)
    (u p f sub bod sndr : String) (rcpts : List String) (ids : List Nat)
    (lo : Except LoginError Unit)
    (fo : Except String (List (String × String × String)))
    (so d e : Except String Unit) (uo : Except UploadError Unit)
    (k : OpResult) :
    wrapper_login s u p lo =
      ⟨s, [], ["Error: Not connected to the server. Call 'connect' first."]⟩
    ∧ wrapper_list_folders s fo = ⟨s, [], ["Not connected!"]⟩
    ∧ wrapper_select_folder s f so = ⟨s, [], ["Not connected!"]⟩
    ∧ wrapper_fetch_emails s k = ⟨s, [], ["Not connected!"]⟩
    ∧ wrapper_delete_emails s ids d e = ⟨s, [], ["Not connected!"]⟩
    ∧ wrapper_upload_email s f sub bod rcpts sndr uo = ⟨s, [], ["Not connected!"]⟩
    ∧ wrapper_fetch_emails t k =
        ⟨t, [], ["No folder selected. Use 'select' to choose a folder."]⟩
    ∧ wrapper_delete_emails t ids d e =
        ⟨t, [], ["No folder selected. Use 'select' to choose a folder."]⟩ := by
  refine ⟨?_, ?_, ?_, ?_, ?_, ?_, ?_, ?_⟩ <;>
    simp [wrapper_login, wrapper_list_folders, wrapper_select_folder,
      wrapper_fetch_emails, wrapper_delete_emails, wrapper_upload_email,
      hs, htc, htf]

/-- Witness for `C1_connection_and_folder_guards` at concrete states. -/
theorem C1_connection_and_folder_guards_witness :
    wrapper_login ⟨none, none⟩ "u" "p" (.ok ()) =
      ⟨⟨none, none⟩, [],
        ["Error: Not connected to the server. Call 'connect' first."]⟩
    ∧ wrapper_list_folders ⟨none, none⟩ (.ok []) =
        ⟨⟨none, none⟩, [], ["Not connected!"]⟩
    ∧ wrapper_select_folder ⟨none, none⟩ "F" (.ok ()) =
        ⟨⟨none, none⟩, [], ["Not connected!"]⟩
    ∧ wrapper_fetch_emails ⟨none, none⟩ ⟨⟨none, none⟩, [], []⟩ =
        ⟨⟨none, none⟩, [], ["Not connected!"]⟩
    ∧ wrapper_delete_emails ⟨none, none⟩ [3] (.ok ()) (.ok ()) =
        ⟨⟨none, none⟩, [], ["Not connected!"]⟩
    ∧ wrapper_upload_email ⟨none, none⟩ "F" "s" "b" ["r"] "x" (.ok ()) =
        ⟨⟨none, none⟩, [], ["Not connected!"]⟩
    ∧ wrapper_fetch_emails ⟨some (), none⟩ ⟨⟨none, none⟩, [], []⟩ =
        ⟨⟨some (), none⟩, [],
          ["No folder selected. Use 'select' to choose a folder."]⟩
    ∧ wrapper_delete_emails ⟨some (), none⟩ [3] (.ok ()) (.ok ()) =
        ⟨⟨some (), none⟩, [],
          ["No folder selected. Use 'select' to choose a folder."]⟩ :=
  C1_connection_and_folder_guards ⟨none, none⟩ rfl ⟨some (), none⟩ rfl rfl
    "u" "p" "F" "s" "b" "x" ["r"] [3] (.ok ()) (.ok []) (.ok ()) (.ok ())
    (.ok ()) (.ok ()) ⟨⟨none, none⟩, [], []⟩

/-- C5: on a connected wrapper, a failing `select_folder` prints the error
exactly once, leaves `current_folder` (and the whole state) unchanged, and
`current_folder` is set to the requested folder only on success. -/
theorem C5_select_folder_failure_atomic
    (s : WrapperState) (h : s.client = some ()) (f e : String) :
    wrapper_select_folder s f (.error e) =
      ⟨s, [.selectFolderCall f],
        ["Error selecting folder '" ++ f ++ "': " ++ e]⟩
    ∧ (wrapper_select_folder s f (.error e)).state.current_folder =
        s.current_folder
    ∧ (wrapper_select_folder s f (.error e)).output.length = 1
    ∧ (wrapper_select_folder s f (.ok ())).state.current_folder = some f := by
  refine ⟨?_, ?_, ?_, ?_⟩ <;> simp [wrapper_select_folder, h]

/-- Witness for `C5_select_folder_failure_atomic`. -/
theorem C5_select_folder_failure_atomic_witness :
    wrapper_select_folder ⟨some (), some "A"⟩ "B" (.error "boom") =
      ⟨⟨some (), some "A"⟩, [.selectFolderCall "B"],
        ["Error selecting folder '" ++ "B" ++ "': " ++ "boom"]⟩
    ∧ (wrapper_select_folder ⟨some (), some "A"⟩ "B"
        (.error "boom")).state.current_folder =
        (⟨some (), some "A"⟩ : WrapperState).current_folder
    ∧ (wrapper_select_folder ⟨some (), some "A"⟩ "B"
        (.error "boom")).output.length = 1
    ∧ (wrapper_select_folder ⟨some (), some "A"⟩ "B"
        (.ok ())).state.current_folder = some "B" :=
  C5_select_folder_failure_atomic ⟨some (), some "A"⟩ rfl "B" "boom"

/-- C6: `logout` on a live session sets the handle to `None` whether the
library call succeeds or raises, and the shell's `logout` and `exit`
commands always end with no client. -/
theorem C6_logout_destroys_session
    (s : WrapperState) (h : s.client = some ())
    (o o2 o3 : Except String Unit) (sh sh2 : ShellState) :
    (wrapper_logout s o).state.client = none
    ∧ (do_logout sh o2).1.client = none
    ∧ (do_exit sh2 o3).1.client = none := by
  refine ⟨?_, ?_, ?_⟩
  · cases o <;> simp [wrapper_logout, h]
  · cases hc : sh.client <;> simp [do_logout, hc]
  · cases hc : sh2.client <;> simp [do_exit, hc]

/-- Witness for `C6_logout_destroys_session`. -/
theorem C6_logout_destroys_session_witness :
    (wrapper_logout ⟨some (), some "A"⟩ (.error "boom")).state.client = none
    ∧ (do_logout ⟨some ⟨some (), some "A"⟩⟩ (.ok ())).1.client = none
    ∧ (do_exit ⟨some ⟨some (), some "A"⟩⟩ (.error "x")).1.client = none :=
  C6_logout_destroys_session ⟨some (), some "A"⟩ rfl (.error "boom") (.ok ())
    (.error "x") ⟨some ⟨some (), some "A"⟩⟩ ⟨some ⟨some (), some "A"⟩⟩

/-- C8: on a search result `l` the wrapper returns at most the last 10
ids as a suffix of `l` (all of `l` when it is shorter than 10), and the
empty list when the library call raises or the handle is `None`. -/
theorem C8_fetch_message_ids_last_ten (l : List Nat) (e : String)
    (o : Except String (List Nat)) :
    (fetch_message_ids (some ()) (.ok l)).1.length ≤ 10
    ∧ (fetch_message_ids (some ()) (.ok l)).1 <:+ l
    ∧ (l.length < 10 → (fetch_message_ids (some ()) (.ok l)).1 = l)
    ∧ (10 ≤ l.length →
        (fetch_message_ids (some ()) (.ok l)).1 = l.drop (l.length - 10))
    ∧ (fetch_message_ids (some ()) (.error e)).1 = []
    ∧ (fetch_message_ids none o).1 = [] := by
  refine ⟨?_, ?_, ?_, ?_, ?_, ?_⟩
  · by_cases h : 10 ≤ l.length <;> simp [fetch_message_ids, h] <;> omega
  · by_cases h : 10 ≤ l.length <;> simp [fetch_message_ids, h]
    exact List.drop_suffix _ _
  · intro h
    have h10 : ¬ 10 ≤ l.length := by omega
    simp [fetch_message_ids, h10]
  · intro h
    simp [fetch_message_ids, h]
  · simp [fetch_message_ids]
  · simp [fetch_message_ids]

/-- Witness for `C8_fetch_message_ids_last_ten` on a 12-element search
result. -/
theorem C8_fetch_message_ids_last_ten_witness :
    (fetch_message_ids (some ())
      (.ok [1, 2, 3, 4, 5, 6, 7, 8, 9, 10, 11, 12])).1.length ≤ 10
    ∧ (fetch_message_ids (some ())
        (.ok [1, 2, 3, 4, 5, 6, 7, 8, 9, 10, 11, 12])).1 <:+
        [1, 2, 3, 4, 5, 6, 7, 8, 9, 10, 11, 12]
    ∧ ((List.length [1, 2, 3, 4, 5, 6, 7, 8, 9, 10, 11, 12] < 10 →
        (fetch_message_ids (some ())
          (.ok [1, 2, 3, 4, 5, 6, 7, 8, 9, 10, 11, 12])).1 =
          [1, 2, 3, 4, 5, 6, 7, 8, 9, 10, 11, 12]))
    ∧ (10 ≤ List.length [1, 2, 3, 4, 5, 6, 7, 8, 9, 10, 11, 12] →
        (fetch_message_ids (some ())
          (.ok [1, 2, 3, 4, 5, 6, 7, 8, 9, 10, 11, 12])).1 =
          List.drop (List.length [1, 2, 3, 4, 5, 6, 7, 8, 9, 10, 11, 12] - 10)
            [1, 2, 3, 4, 5, 6, 7, 8, 9, 10, 11, 12])
    ∧ (fetch_message_ids (some ()) (.error "boom")).1 = []
    ∧ (fetch_message_ids none (.ok [5])).1 = [] :=
  C8_fetch_message_ids_last_ten [1, 2, 3, 4, 5, 6, 7, 8, 9, 10, 11, 12]
    "boom" (.ok [5])

/-- C2: `download_specific_attachments` writes each `(filename, data)`
pair to `save_dir/message_<id>/<filename>` with exactly the returned
bytes, and every write it performs is one of these;
`save_attachments` does the same directly under `save_dir` (the Python
default for `save_dir` is `"attachments"` in both). -/
theorem C2_attachment_writes
    (msg_id : Nat) (attachments : List (String × List Nat))
    (save_dir fn : String) (data : List Nat) :
    ((fn, data) ∈ attachments →
      FsEvent.writeFile
          (save_dir ++ "/message_" ++ toString msg_id ++ "/" ++ fn) data ∈
        download_specific_attachments msg_id attachments save_dir)
    ∧ (∀ p d, FsEvent.writeFile p d ∈
          download_specific_attachments msg_id attachments save_dir →
        ∃ fn2, (fn2, d) ∈ attachments ∧
          p = save_dir ++ "/message_" ++ toString msg_id ++ "/" ++ fn2)
    ∧ ((fn, data) ∈ attachments →
        FsEvent.writeFile (save_dir ++ "/" ++ fn) data ∈
          save_attachments attachments save_dir)
    ∧ (∀ p d, FsEvent.writeFile p d ∈ save_attachments attachments save_dir →
        ∃ fn2, (fn2, d) ∈ attachments ∧ p = save_dir ++ "/" ++ fn2) := by
  refine ⟨?_, ?_, ?_, ?_⟩
  · intro hmem
    simp only [download_specific_attachments, List.mem_cons, List.mem_map]
    exact Or.inr ⟨(fn, data), hmem, rfl⟩
  · intro p d hmem
    simp only [download_specific_attachments, List.mem_cons,
      List.mem_map] at hmem
    rcases hmem with h | ⟨a, ha, he⟩
    · cases h
    · obtain ⟨h1, h2⟩ := FsEvent.writeFile.inj he
      exact ⟨a.1, by simpa [← h2] using ha, h1.symm⟩
  · intro hmem
    simp only [save_attachments, List.mem_cons, List.mem_map]
    exact Or.inr ⟨(fn, data), hmem, rfl⟩
  · intro p d hmem
    simp only [save_attachments, List.mem_cons, List.mem_map] at hmem
    rcases hmem with h | ⟨a, ha, he⟩
    · cases h
    · obtain ⟨h1, h2⟩ := FsEvent.writeFile.inj he
      exact ⟨a.1, by simpa [← h2] using ha, h1.symm⟩

/-- Witness for `C2_attachment_writes` on one concrete attachment list. -/
theorem C2_attachment_writes_witness :
    (("f.txt", [7, 8]) ∈ [("f.txt", ([7, 8] : List Nat))] →
      FsEvent.writeFile
          ("attachments" ++ "/message_" ++ toString 4 ++ "/" ++ "f.txt")
          [7, 8] ∈
        download_specific_attachments 4 [("f.txt", [7, 8])] "attachments")
    ∧ (∀ p d, FsEvent.writeFile p d ∈
          download_specific_attachments 4 [("f.txt", [7, 8])] "attachments" →
        ∃ fn2, (fn2, d) ∈ [("f.txt", ([7, 8] : List Nat))] ∧
          p = "attachments" ++ "/message_" ++ toString 4 ++ "/" ++ fn2)
    ∧ (("f.txt", [7, 8]) ∈ [("f.txt", ([7, 8] : List Nat))] →
        FsEvent.writeFile ("attachments" ++ "/" ++ "f.txt") [7, 8] ∈
          save_attachments [("f.txt", [7, 8])] "attachments")
    ∧ (∀ p d, FsEvent.writeFile p d ∈
          save_attachments [("f.txt", [7, 8])] "attachments" →
        ∃ fn2, (fn2, d) ∈ [("f.txt", ([7, 8] : List Nat))] ∧
          p = "attachments" ++ "/" ++ fn2) :=
  C2_attachment_writes 4 [("f.txt", [7, 8])] "attachments" "f.txt" [7, 8]

/-- Strict UTF-8 decoding succeeds only where the `errors='ignore'`
decoding returns the same code points (same fuel on both sides). -/
theorem utf8_ignoreAux_agrees_strictAux :
    ∀ (fuel : Nat) (l cs : List Nat),
      utf8DecodeStrictAux fuel l = some cs → utf8DecodeIgnoreAux fuel l = cs := by
  intro fuel
  induction fuel with
  | zero =>
    intro l cs h
    cases l with
    | nil =>
      simp [utf8DecodeStrictAux] at h
      simp [utf8DecodeIgnoreAux, h.symm]
    | cons b rest => simp [utf8DecodeStrictAux] at h
  | succ n ih =>
    intro l cs h
    cases l with
    | nil =>
      simp [utf8DecodeStrictAux] at h
      simp [utf8DecodeIgnoreAux, h.symm]
    | cons b rest =>
      simp only [utf8DecodeStrictAux] at h
      simp only [utf8DecodeIgnoreAux]
      cases hm : utf8DecodeOne (b :: rest) with
      | none => rw [hm] at h; cases h
      | some pr =>
        obtain ⟨cp, r2⟩ := pr
        rw [hm] at h
        dsimp only at h ⊢
        cases hs : utf8DecodeStrictAux n r2 with
        | none => rw [hs] at h; cases h
        | some cps =>
          rw [hs] at h
          obtain rfl : cp :: cps = cs := by
            cases h; rfl
          simp [ih r2 cps hs]

/-- C3, counterexample: for the invalid-UTF-8 byte string `b'\xff'`,
`extract_sender` (and `extract_subject`) returns the empty string —
`decode('utf-8', errors='ignore')` drops the byte — not the latin-1
decoding `'ÿ'` the claim requires, so the claimed latin-1 fallback does
not happen (the `except UnicodeDecodeError` branch is dead code). -/
theorem C3_counterexample_no_latin1_fallback :
    extract_sender (some [65]) (.bytesVal [255]) = some []
    ∧ extract_subject (some [65]) (.bytesVal [255]) = some []
    ∧ utf8Valid [255] = false
    ∧ latin1Decode [255] = [255]
    ∧ extract_sender (some [65]) (.bytesVal [255]) ≠
        some (latin1Decode [255]) := by
  refine ⟨by decide, by decide, by decide, by decide, by decide⟩

/-- C3, amended: on a byte-string header value the extraction decodes it
as UTF-8 with `errors='ignore'` (so on valid UTF-8 it is exactly the
UTF-8 decoding, and invalid sequences are dropped rather than re-decoded
as latin-1); the decode is total, so no exception is raised and the
latin-1 branch is unreachable. -/
theorem C3_header_decode_ignore (hdr b cs : List Nat) (h : hdr ≠ []) :
    extract_sender (some hdr) (.bytesVal b) =
      some (pyBytesDecodeUtf8Ignore b)
    ∧ extract_subject (some hdr) (.bytesVal b) =
        some (pyBytesDecodeUtf8Ignore b)
    ∧ (utf8DecodeStrict b = some cs → pyBytesDecodeUtf8Ignore b = cs) := by
  refine ⟨?_, ?_, ?_⟩
  · simp [extract_sender, h, decodeHeaderBranch]
  · simp [extract_subject, h, decodeHeaderBranch]
  · intro hs
    exact utf8_ignoreAux_agrees_strictAux b.length b cs hs

/-- Witness for `C3_header_decode_ignore`: the header `"A"` whose decoded
first part is the UTF-8 bytes of `'é'`. -/
theorem C3_header_decode_ignore_witness :
    extract_sender (some [65]) (.bytesVal [195, 169]) =
      some (pyBytesDecodeUtf8Ignore [195, 169])
    ∧ extract_subject (some [65]) (.bytesVal [195, 169]) =
        some (pyBytesDecodeUtf8Ignore [195, 169])
    ∧ (utf8DecodeStrict [195, 169] = some [233] →
        pyBytesDecodeUtf8Ignore [195, 169] = [233]) :=
  C3_header_decode_ignore [65] [195, 169] [233] (by decide)

/-- Key membership characterizes `dictContains`. -/
theorem dictContains_iff (m : List (Nat × MsgView)) (k : Nat) :
    dictContains m k = true ↔ ∃ p ∈ m, p.1 = k := by
  simp [dictContains, List.any_eq_true]

/-- Deleting key `k` from the dict leaves the presence of any other key
unchanged. -/
theorem dictContains_filter_ne (m : List (Nat × MsgView)) (k k' : Nat)
    (h : ¬ k' = k) :
    dictContains (m.filter (fun p => ¬ p.1 = k)) k' = dictContains m k' := by
  rw [Bool.eq_iff_iff]
  simp only [dictContains_iff, List.mem_filter]
  constructor
  · rintro ⟨p, ⟨hm, _⟩, hk⟩
    exact ⟨p, hm, hk⟩
  · rintro ⟨p, hm, hk⟩
    refine ⟨p, ⟨hm, ?_⟩, hk⟩
    simp [hk, h]

/-- When the keys are distinct and all present, the `del` loop raises no
`KeyError` and removes exactly those keys. -/
theorem dictDeleteMany_all_present :
    ∀ (ks : List Nat) (m : List (Nat × MsgView)), ks.Nodup →
      (∀ k ∈ ks, dictContains m k = true) →
      dictDeleteMany m ks = (m.filter (fun p => ¬ p.1 ∈ ks), false)
  | [], m, _, _ => by
    simp [dictDeleteMany]
  | k :: rest, m, hnd, hall => by
    have hk : dictContains m k = true := hall k (by simp)
    have hknotin : k ∉ rest := (List.nodup_cons.mp hnd).1
    have hrest : ∀ k' ∈ rest,
        dictContains (m.filter (fun p => ¬ p.1 = k)) k' = true := by
      intro k' hk'
      have hne : ¬ k' = k := fun he => hknotin (he ▸ hk')
      rw [dictContains_filter_ne m k k' hne]
      exact hall k' (by simp [hk'])
    have ih := dictDeleteMany_all_present rest
      (m.filter (fun p => ¬ p.1 = k)) (List.nodup_cons.mp hnd).2 hrest
    simp only [dictDeleteMany, dictDelete, hk, if_true, ih,
      List.filter_filter, Prod.mk.injEq]
    refine ⟨List.filter_congr ?_, trivial⟩
    intro p _
    by_cases h1 : p.1 = k <;> by_cases h2 : p.1 ∈ rest <;>
      simp [h1, h2]

/-- C10, counterexample: with one listed message (id 1), input `"1"`, a
confirmed deletion and a library `delete_messages` call that raises (so
nothing at all is deleted — `expunge` is never reached), the GUI still
removes id 1 from `current_messages`; the removed ids are not the ids
actually deleted. -/
theorem C10_counterexample_removal_without_deletion :
    (gui_delete_emails
        ⟨some ⟨some (), some "INBOX"⟩, [(1, ("s", "t", "d"))]⟩
        ['1'] true true (.error "boom") (.ok ())).1.current_messages = []
    ∧ wrapperDeletedIds ⟨some (), some "INBOX"⟩ [1] (.error "boom") (.ok ())
        = []
    ∧ dictContains [(1, ("s", "t", "d"))] 1 = true
    ∧ (gui_delete_emails
        ⟨some ⟨some (), some "INBOX"⟩, [(1, ("s", "t", "d"))]⟩
        ['1'] true true (.error "boom") (.ok ())).2.1 =
        [.deleteMessagesCall [1]] := by
  refine ⟨by decide, by decide, by decide, by decide⟩

/-- C10, amended: ids not in `current_messages` are filtered out before
the library call, which receives exactly the valid ids; after a confirmed
deletion with distinct valid ids, every valid id is removed from the map
without a `KeyError` — whether or not the library deletion succeeded — so
the map afterwards contains no id that was passed to the deletion call
(with duplicated valid ids the removal loop raises an uncaught
`KeyError`). -/
theorem C10_delete_filter_and_clear
    (s : GuiState) (w : WrapperState) (hw : s.client = some w)
    (ids_input : List Char) (d e : Except String Unit)
    (hvalid : (parseIdsLine ids_input).filter
        (fun i => dictContains s.current_messages i) ≠ [])
    (hnd : ((parseIdsLine ids_input).filter
        (fun i => dictContains s.current_messages i)).Nodup) :
    (∀ i ∈ (parseIdsLine ids_input).filter
        (fun i => dictContains s.current_messages i),
      dictContains s.current_messages i = true)
    ∧ (gui_delete_emails s ids_input true true d e).2.1 =
        (wrapper_delete_emails w
          ((parseIdsLine ids_input).filter
            (fun i => dictContains s.current_messages i)) d e).calls
    ∧ (∀ ids2, LibCall.deleteMessagesCall ids2 ∈
          (gui_delete_emails s ids_input true true d e).2.1 →
        ids2 = (parseIdsLine ids_input).filter
          (fun i => dictContains s.current_messages i))
    ∧ (gui_delete_emails s ids_input true true d e).1.current_messages =
        s.current_messages.filter
          (fun p => ¬ p.1 ∈ (parseIdsLine ids_input).filter
            (fun i => dictContains s.current_messages i))
    ∧ (gui_delete_emails s ids_input true true d e).2.2 = false
    ∧ (∀ i ∈ (parseIdsLine ids_input).filter
        (fun i => dictContains s.current_messages i),
      dictContains
        ((gui_delete_emails s ids_input true true d e).1.current_messages) i
        = false) := by
  have hmap : ¬ s.current_messages = [] := by
    intro hemp
    apply hvalid
    rw [hemp]
    simp [dictContains]
  have hpres : ∀ k ∈ (parseIdsLine ids_input).filter
      (fun i => dictContains s.current_messages i),
      dictContains s.current_messages k = true :=
    fun k hk => (List.mem_filter.mp hk).2
  have hdm := dictDeleteMany_all_present
    ((parseIdsLine ids_input).filter
      (fun i => dictContains s.current_messages i))
    s.current_messages hnd hpres
  have hrun : gui_delete_emails s ids_input true true d e =
      ({ client := some (wrapper_delete_emails w
            ((parseIdsLine ids_input).filter
              (fun i => dictContains s.current_messages i)) d e).state,
         current_messages := s.current_messages.filter
           (fun p => ¬ p.1 ∈ (parseIdsLine ids_input).filter
             (fun i => dictContains s.current_messages i)) },
        (wrapper_delete_emails w
          ((parseIdsLine ids_input).filter
            (fun i => dictContains s.current_messages i)) d e).calls,
        false) := by
    simp only [gui_delete_emails, hw, hmap, if_false, not_true,
      if_neg hvalid, hdm]
  refine ⟨hpres, by rw [hrun], ?_, by rw [hrun], by rw [hrun], ?_⟩
  · intro ids2 hmem
    rw [hrun] at hmem
    rcases w with ⟨wc, wf⟩
    cases wc <;> cases wf <;> cases d <;> cases e <;>
      simp [wrapper_delete_emails] at hmem <;> exact hmem
  · intro i hi
    rw [hrun]
    rw [Bool.eq_false_iff]
    intro hc
    obtain ⟨p, hpmem, hpk⟩ := (dictContains_iff _ _).mp hc
    have := (List.mem_filter.mp hpmem).2
    rw [hpk] at this
    simp [hi] at this

/-- Witness for `C10_delete_filter_and_clear`: one listed message, input
`"1"`, confirmed, library delete succeeding. -/
theorem C10_delete_filter_and_clear_witness :
    (∀ i ∈ (parseIdsLine ['1']).filter
        (fun i => dictContains [(1, ("s", "t", "d"))] i),
      dictContains [(1, ("s", "t", "d"))] i = true)
    ∧ (gui_delete_emails ⟨some ⟨some (), some "INBOX"⟩, [(1, ("s", "t", "d"))]⟩
        ['1'] true true (.ok ()) (.ok ())).2.1 =
        (wrapper_delete_emails ⟨some (), some "INBOX"⟩
          ((parseIdsLine ['1']).filter
            (fun i => dictContains [(1, ("s", "t", "d"))] i))
          (.ok ()) (.ok ())).calls
    ∧ (∀ ids2, LibCall.deleteMessagesCall ids2 ∈
          (gui_delete_emails
            ⟨some ⟨some (), some "INBOX"⟩, [(1, ("s", "t", "d"))]⟩
            ['1'] true true (.ok ()) (.ok ())).2.1 →
        ids2 = (parseIdsLine ['1']).filter
          (fun i => dictContains [(1, ("s", "t", "d"))] i))
    ∧ (gui_delete_emails ⟨some ⟨some (), some "INBOX"⟩, [(1, ("s", "t", "d"))]⟩
        ['1'] true true (.ok ()) (.ok ())).1.current_messages =
        List.filter
          (fun p => ¬ p.1 ∈ (parseIdsLine ['1']).filter
            (fun i => dictContains [(1, ("s", "t", "d"))] i))
          [(1, ("s", "t", "d"))]
    ∧ (gui_delete_emails ⟨some ⟨some (), some "INBOX"⟩, [(1, ("s", "t", "d"))]⟩
        ['1'] true true (.ok ()) (.ok ())).2.2 = false
    ∧ (∀ i ∈ (parseIdsLine ['1']).filter
        (fun i => dictContains [(1, ("s", "t", "d"))] i),
      dictContains
        ((gui_delete_emails
          ⟨some ⟨some (), some "INBOX"⟩, [(1, ("s", "t", "d"))]⟩
          ['1'] true true (.ok ()) (.ok ())).1.current_messages) i = false) :=
  C10_delete_filter_and_clear
    ⟨some ⟨some (), some "INBOX"⟩, [(1, ("s", "t", "d"))]⟩
    ⟨some (), some "INBOX"⟩ rfl ['1'] (.ok ()) (.ok ())
    (by decide) (by decide)

/-- C7: `list_emails` replaces the listing map by one built only from the
freshly fetched ids (clearing it when none fetch), `logout` on a live
client empties it, the invariant "no client implies empty map" holds
initially and is preserved by every GUI operation, and hence after any
`logout` invocation from a reachable state the map is empty. -/
theorem C7_listing_lifecycle
    (s : GuiState) (w : WrapperState) (hw : s.client = some w)
    (so : Except String (List Nat)) (fm : Nat → GuiFetchedMsg)
    (o : Except String Unit) (s2 : GuiState) (e2 : GuiEvent)
    (hinv : guiInv s2) (o2 : Except String Unit) :
    (gui_list_emails s so fm).current_messages =
      (if (fetch_message_ids w.client so).1 = [] then []
       else guiFreshListing (fetch_message_ids w.client so).1 fm)
    ∧ (gui_logout s o).current_messages = []
    ∧ guiInv (guiStep s2 e2)
    ∧ (gui_logout s2 o2).current_messages = []
    ∧ guiInv guiInit := by
  refine ⟨?_, ?_, ?_, ?_, ?_⟩
  · by_cases hids : (fetch_message_ids w.client so).1 = [] <;>
      simp [gui_list_emails, hw, hids]
  · simp [gui_logout, hw]
  · cases hc : s2.client with
    | none =>
      have hm2 : s2.current_messages = [] := hinv hc
      cases e2 <;>
        simp only [guiStep, gui_connect_to_server, gui_login,
          gui_select_folder, gui_list_emails, gui_download_attachments,
          gui_delete_emails, gui_logout, hc, guiInv] <;>
        (try split_ifs) <;> (try split) <;> (try split_ifs) <;> (try intro hcl) <;>
        first | trivial | exact hm2 | rfl | cases hcl | exact hinv hcl | simp_all
    | some w2 =>
      cases e2 <;>
        simp only [guiStep, gui_connect_to_server, gui_login,
          gui_select_folder, gui_list_emails, gui_download_attachments,
          gui_delete_emails, gui_logout, hc, guiInv] <;>
        (try split_ifs) <;> (try split) <;> (try split_ifs) <;> (try intro hcl) <;>
        first | trivial | rfl | cases hcl | exact hinv hcl | simp_all
  · cases hc : s2.client with
    | none => simp [gui_logout, hc, hinv hc]
    | some w2 => simp [gui_logout, hc]
  · intro _
    rfl

/-- Witness for `C7_listing_lifecycle`: a connected GUI with one stale
entry, a fresh listing of message 1, and a logout event. -/
theorem C7_listing_lifecycle_witness :
    (gui_list_emails ⟨some ⟨some (), some "F"⟩, [(2, ("s", "t", "d"))]⟩
      (.ok [1])
      (fun _ => some (some "s2", some "t2", some "d2"))).current_messages =
      (if (fetch_message_ids
            (⟨some (), some "F"⟩ : WrapperState).client (.ok [1])).1 = []
       then []
       else guiFreshListing
        (fetch_message_ids
          (⟨some (), some "F"⟩ : WrapperState).client (.ok [1])).1
        (fun _ => some (some "s2", some "t2", some "d2")))
    ∧ (gui_logout ⟨some ⟨some (), some "F"⟩, [(2, ("s", "t", "d"))]⟩
        (.ok ())).current_messages = []
    ∧ guiInv (guiStep ⟨some ⟨some (), some "F"⟩, [(2, ("s", "t", "d"))]⟩
        (.logoutEv (.error "x")))
    ∧ (gui_logout ⟨some ⟨some (), some "F"⟩, [(2, ("s", "t", "d"))]⟩
        (.ok ())).current_messages = []
    ∧ guiInv guiInit :=
  C7_listing_lifecycle ⟨some ⟨some (), some "F"⟩, [(2, ("s", "t", "d"))]⟩
    ⟨some (), some "F"⟩ rfl (.ok [1])
    (fun _ => some (some "s2", some "t2", some "d2")) (.ok ())
    ⟨some ⟨some (), some "F"⟩, [(2, ("s", "t", "d"))]⟩
    (.logoutEv (.error "x")) (fun h => by cases h) (.ok ())
